import Mathlib

/-!
Shallow embedding of the Droppers backend order service
(src/backend/src/controllers/deliveryController.ts,
src/backend/src/controllers/orderController.ts — shipped inside
middlewares/validation.ts in this snapshot — ,
src/backend/src/controllers/userController.ts and the Socket.io handlers
of src/backend/src/index.ts), together with theorems settling the frozen
claims about the specification.

The persistence layer (Prisma over a relational store) is modelled as a
list of order rows; `findFirst` is `List.find?`, and `update where {id}`
rewrites the rows whose id matches.  JS numbers that carry money values
are modelled as rationals.  Each handler is a pure function from the
database and the request data to a response envelope and the new
database.
-/

namespace Droppers

/-- Order status enum, from src/backend/src/types/index.ts. -/
inductive OrderStatus where
  | PENDING
  | ASSIGNED
  | PICKED_UP
  | IN_TRANSIT
  | DELIVERED
  | CANCELLED
deriving DecidableEq, Repr

/-- Order row, from the `Order` interface in src/backend/src/types/index.ts. -/
structure Order where
  id : String
  pickupAddress : String
  deliveryAddress : String
  customerName : String
  customerPhone : String
  itemDescription : String
  orderValue : ℚ
  calculatedDistance : ℚ
  status : OrderStatus
  vendorId : String
  dropperId : Option String
  createdAt : Nat
  updatedAt : Nat
deriving DecidableEq, Repr

/-- The orders table. -/
abbrev DB := List Order

/-- Uniform REST response envelope: either a success payload or an HTTP
error status with the message the handler sends. -/
inductive ApiResult (α : Type) where
  | ok (data : α)
  | err (code : Nat) (msg : String)
deriving DecidableEq, Repr

def ApiResult.isOk {α : Type} : ApiResult α → Bool
  | .ok _ => true
  | .err _ _ => false

/-- Prisma `order.update({where: {id}, data})`: rewrites the rows whose id
matches and returns the updated row (`none` when no row has the id, in
which case Prisma throws and the handler's catch produces a 500). -/
def prismaUpdateOrder (db : DB) (orderId : String) (f : Order → Order) :
    Option Order × DB :=
  match db.find? (fun o => o.id == orderId) with
  | none => (none, db)
  | some o => (some (f o), db.map (fun x => if x.id == orderId then f x else x))

/-- Envelope the handlers build around a Prisma update result: the updated
row on success, the catch-all 500 envelope when the update threw. -/
def commitEnvelope (r : Option Order × DB) : ApiResult Order × DB :=
  match r with
  | (some u, db') => (ApiResult.ok u, db')
  | (none, db') => (ApiResult.err 500 "Internal server error", db')

/-- The availability check of `acceptOrder`
(deliveryController.ts lines 60-66): `findFirst` where the id matches,
status is PENDING and no dropper is assigned. -/
def acceptCheck (db : DB) (orderId : String) : Option Order :=
  db.find? (fun o => o.id == orderId && o.status == OrderStatus.PENDING
      && o.dropperId == none)

/-- The commit phase of `acceptOrder` (deliveryController.ts lines 76-100):
an update keyed on the id alone, setting dropperId and status. -/
def acceptCommit (db : DB) (orderId dropperId : String) (now : Nat) :
    ApiResult Order × DB :=
  commitEnvelope (prismaUpdateOrder db orderId (fun o =>
    { o with dropperId := some dropperId, status := OrderStatus.ASSIGNED,
             updatedAt := now }))

/-- `acceptOrder` from deliveryController.ts lines 47-115: check the order
is still available, then commit the assignment.  The commit is keyed on
the id only; nothing re-checks the status at commit time. -/
def acceptOrder (db : DB) (dropperId orderId : String) (now : Nat) :
    ApiResult Order × DB :=
  match acceptCheck db orderId with
  | none => (ApiResult.err 404 "Order not available or already accepted", db)
  | some _ => acceptCommit db orderId dropperId now

/-- Two accept requests for the same order interleaved so that both
availability checks read the same persisted state before either commit
runs.  Each phase is exactly the corresponding phase of `acceptOrder`;
the interleaving is the schedule check₁, check₂, commit₁, commit₂, which
the event loop permits because each database call is an await point. -/
def interleavedAccept (db : DB) (orderId d1 d2 : String) (t1 t2 : Nat) :
    ApiResult Order × ApiResult Order × DB :=
  let c1 := acceptCheck db orderId
  let c2 := acceptCheck db orderId
  let r1 : ApiResult Order × DB :=
    match c1 with
    | none => (ApiResult.err 404 "Order not available or already accepted", db)
    | some _ => acceptCommit db orderId d1 t1
  let r2 : ApiResult Order × DB :=
    match c2 with
    | none => (ApiResult.err 404 "Order not available or already accepted", r1.2)
    | some _ => acceptCommit r1.2 orderId d2 t2
  (r1.1, r2.1, r2.2)

/-- `updateDeliveryStatus` from deliveryController.ts lines 172-243:
require a status in the body, require the order to belong to the caller,
then write the requested status unconditionally. -/
def updateDeliveryStatus (db : DB) (callerId orderId : String)
    (status : Option OrderStatus) (now : Nat) : ApiResult Order × DB :=
  match status with
  | none => (ApiResult.err 400 "Status is required", db)
  | some s =>
    match db.find? (fun o => o.id == orderId && o.dropperId == some callerId) with
    | none =>
      (ApiResult.err 404 "Order not found or you are not assigned to this delivery", db)
    | some _ =>
      commitEnvelope (prismaUpdateOrder db orderId (fun o =>
        { o with status := s, updatedAt := now }))

/-- `updateOrderStatus` from orderController.ts lines 243-306 (vendor
PATCH /orders/vendor/:id/status): require a status in the body, require
the order to belong to the vendor, then write the requested status
unconditionally. -/
def updateOrderStatus (db : DB) (vendorId orderId : String)
    (status : Option OrderStatus) (now : Nat) : ApiResult Order × DB :=
  match status with
  | none => (ApiResult.err 400 "Status is required", db)
  | some s =>
    match db.find? (fun o => o.id == orderId && o.vendorId == vendorId) with
    | none => (ApiResult.err 404 "Order not found", db)
    | some _ =>
      commitEnvelope (prismaUpdateOrder db orderId (fun o =>
        { o with status := s, updatedAt := now }))

/-- `cancelOrder` from orderController.ts lines 309-371: require the order
to belong to the vendor, reject unless it is still PENDING, else set
status CANCELLED (the dropper column is untouched). -/
def cancelOrder (db : DB) (vendorId orderId : String) (now : Nat) :
    ApiResult Order × DB :=
  match db.find? (fun o => o.id == orderId && o.vendorId == vendorId) with
  | none => (ApiResult.err 404 "Order not found", db)
  | some o =>
    if o.status != OrderStatus.PENDING then
      (ApiResult.err 400 "Only pending orders can be cancelled", db)
    else
      commitEnvelope (prismaUpdateOrder db orderId (fun x =>
        { x with status := OrderStatus.CANCELLED, updatedAt := now }))

/-- `completeDelivery` from deliveryController.ts lines 312-376: require
the order to belong to the caller and to be IN_TRANSIT, then set status
DELIVERED. -/
def completeDelivery (db : DB) (callerId orderId : String) (now : Nat) :
    ApiResult Order × DB :=
  match db.find? (fun o => o.id == orderId && o.dropperId == some callerId
      && o.status == OrderStatus.IN_TRANSIT) with
  | none =>
    (ApiResult.err 404 "Order not found or not ready for delivery completion", db)
  | some _ =>
    commitEnvelope (prismaUpdateOrder db orderId (fun o =>
      { o with status := OrderStatus.DELIVERED, updatedAt := now }))

/-- Request body of POST /orders/vendor/create, from the `CreateOrderInput`
fields read by `createOrder` (orderController.ts lines 70-77); orderValue
may be absent from the body. -/
structure CreateOrderInput where
  pickupAddress : String
  deliveryAddress : String
  customerName : String
  customerPhone : String
  itemDescription : String
  orderValue : Option ℚ
deriving DecidableEq, Repr

/-- `createOrder` from orderController.ts lines 60-136: reject when any of
the five text fields is missing (falsy), default orderValue to 0
(`orderValue || 0`), and insert a PENDING row with no dropper.  The
generated id, the mocked distance and the clock are passed in as the
environment the handler draws them from. -/
def createOrder (db : DB) (vendorId : String) (input : CreateOrderInput)
    (newId : String) (calculatedDistance : ℚ) (now : Nat) :
    ApiResult Order × DB :=
  if input.pickupAddress == "" || input.deliveryAddress == ""
      || input.customerName == "" || input.customerPhone == ""
      || input.itemDescription == "" then
    (ApiResult.err 400 "All fields are required", db)
  else
    let o : Order :=
      { id := newId
        pickupAddress := input.pickupAddress
        deliveryAddress := input.deliveryAddress
        customerName := input.customerName
        customerPhone := input.customerPhone
        itemDescription := input.itemDescription
        orderValue := input.orderValue.getD 0
        calculatedDistance := calculatedDistance
        status := OrderStatus.PENDING
        vendorId := vendorId
        dropperId := none
        createdAt := now
        updatedAt := now }
    (ApiResult.ok o, db ++ [o])

/-- `getOrderById` from orderController.ts lines 192-240: `findFirst` by id
alone. -/
def getOrderById (db : DB) (orderId : String) : ApiResult Order :=
  match db.find? (fun o => o.id == orderId) with
  | none => ApiResult.err 404 "Order not found"
  | some o => ApiResult.ok o

/-- Payload of GET /orders/delivery/stats (deliveryController.ts lines
290-300). -/
structure DeliveryStats where
  totalDeliveries : Nat
  completedDeliveries : Nat
  activeDeliveries : Nat
  totalEarnings : ℚ
  pendingEarnings : ℚ
deriving DecidableEq, Repr

/-- `getDeliveryStats` from deliveryController.ts lines 246-309: counts and
an aggregate sum over the partner's rows; earnings are the DELIVERED sum
times the hardcoded 20% commission, pendingEarnings is the literal 0. -/
def getDeliveryStats (db : DB) (dropperId : String) : DeliveryStats :=
  { totalDeliveries :=
      (db.filter (fun o => o.dropperId == some dropperId)).length
    completedDeliveries :=
      (db.filter (fun o => o.dropperId == some dropperId
        && o.status == OrderStatus.DELIVERED)).length
    activeDeliveries :=
      (db.filter (fun o => o.dropperId == some dropperId
        && (o.status == OrderStatus.ASSIGNED
          || o.status == OrderStatus.PICKED_UP
          || o.status == OrderStatus.IN_TRANSIT))).length
    totalEarnings :=
      ((db.filter (fun o => o.dropperId == some dropperId
        && o.status == OrderStatus.DELIVERED)).map Order.orderValue).sum
        * (2 / 10)
    pendingEarnings := 0 }

/-- Payload of GET /orders/vendor/stats (orderController.ts lines
412-421). -/
structure VendorStats where
  totalOrders : Nat
  pendingOrders : Nat
  deliveredOrders : Nat
  totalRevenue : ℚ
deriving DecidableEq, Repr

/-- `getVendorStats` from orderController.ts lines 374-430: counts and the
DELIVERED orderValue sum over the vendor's rows. -/
def getVendorStats (db : DB) (vendorId : String) : VendorStats :=
  { totalOrders := (db.filter (fun o => o.vendorId == vendorId)).length
    pendingOrders :=
      (db.filter (fun o => o.vendorId == vendorId
        && o.status == OrderStatus.PENDING)).length
    deliveredOrders :=
      (db.filter (fun o => o.vendorId == vendorId
        && o.status == OrderStatus.DELIVERED)).length
    totalRevenue :=
      ((db.filter (fun o => o.vendorId == vendorId
        && o.status == OrderStatus.DELIVERED)).map Order.orderValue).sum }

/-- User row, from the `User` interface in src/backend/src/types/index.ts.
The role is kept as the raw string the registration body carries, since
`register` checks it against string literals. -/
structure User where
  id : String
  email : String
  password : String
  name : String
  phone : String
  role : String
  isActive : Bool
deriving DecidableEq, Repr

/-- Body of POST /auth/register, from `CreateUserInput`. -/
structure RegisterInput where
  email : String
  password : String
  name : String
  phone : String
  role : String
deriving DecidableEq, Repr

/-- `register` from userController.ts lines 10-82: reject any role other
than VENDOR or DELIVERY_PARTNER, reject a duplicate email, else insert
the user (hash and generated id supplied by the environment). -/
def register (users : List User) (input : RegisterInput)
    (newId hashedPassword : String) : ApiResult User × List User :=
  if !(["VENDOR", "DELIVERY_PARTNER"].contains input.role) then
    (ApiResult.err 400 "Invalid role. Must be VENDOR or DELIVERY_PARTNER", users)
  else if (users.find? (fun u => u.email == input.email)).isSome then
    (ApiResult.err 400 "User already exists with this email", users)
  else
    let u : User :=
      { id := newId, email := input.email, password := hashedPassword,
        name := input.name, phone := input.phone, role := input.role,
        isActive := true }
    (ApiResult.ok u, users ++ [u])

/-- Outcome of the socket `delivery:status-update` handler: the new
database, what (if anything) is emitted back to the emitting client, and
what is pushed to the owning vendor's room. -/
structure SocketEffect where
  db : DB
  emitterMsg : Option String
  vendorRoomEmit : Option Order
deriving DecidableEq, Repr

/-- The `delivery:status-update` handler from index.ts lines 231-298: look
the order up by id (logging and returning silently when absent), write
the requested status unconditionally, and emit the updated order to the
vendor room.  The handler receives no caller identity and has no
callback, so nothing is ever sent back to the emitter. -/
def socketDeliveryStatusUpdate (db : DB) (orderId : String)
    (status : OrderStatus) (now : Nat) : SocketEffect :=
  match db.find? (fun o => o.id == orderId) with
  | none => { db := db, emitterMsg := none, vendorRoomEmit := none }
  | some _ =>
    match prismaUpdateOrder db orderId (fun o =>
        { o with status := status, updatedAt := now }) with
    | (some u, db') => { db := db', emitterMsg := none, vendorRoomEmit := some u }
    | (none, db') => { db := db', emitterMsg := none, vendorRoomEmit := none }

/-- One step of the system: some handler runs against the current orders
table with some request data and commits its new table. -/
inductive Step : DB → DB → Prop where
  | create (db : DB) (vendorId : String) (input : CreateOrderInput)
      (newId : String) (dist : ℚ) (now : Nat) :
      Step db (createOrder db vendorId input newId dist now).2
  | accept (db : DB) (dropperId orderId : String) (now : Nat) :
      Step db (acceptOrder db dropperId orderId now).2
  | cancel (db : DB) (vendorId orderId : String) (now : Nat) :
      Step db (cancelOrder db vendorId orderId now).2
  | vendorStatus (db : DB) (vendorId orderId : String)
      (s : Option OrderStatus) (now : Nat) :
      Step db (updateOrderStatus db vendorId orderId s now).2
  | deliveryStatus (db : DB) (callerId orderId : String)
      (s : Option OrderStatus) (now : Nat) :
      Step db (updateDeliveryStatus db callerId orderId s now).2
  | complete (db : DB) (callerId orderId : String) (now : Nat) :
      Step db (completeDelivery db callerId orderId now).2

/-- A table reachable from the empty table through the system's
operations. -/
def Reachable (db : DB) : Prop := Relation.ReflTransGen Step [] db

/-- Modelled from the spec: the transition table of section 4.1, written
from the spec's words so the handlers' behaviour can be compared against
it.  The source has no such table. -/
def specTransitionTable : OrderStatus → OrderStatus → Bool
  | OrderStatus.PENDING, OrderStatus.ASSIGNED => true
  | OrderStatus.PENDING, OrderStatus.CANCELLED => true
  | OrderStatus.ASSIGNED, OrderStatus.PICKED_UP => true
  | OrderStatus.PICKED_UP, OrderStatus.IN_TRANSIT => true
  | OrderStatus.IN_TRANSIT, OrderStatus.DELIVERED => true
  | _, _ => false

/-- Concrete order row used to instantiate the theorems on concrete
inputs. -/
def sampleOrder (i v : String) (d : Option String) (s : OrderStatus) : Order :=
  { id := i
    pickupAddress := "12 Pickup Street"
    deliveryAddress := "34 Delivery Avenue"
    customerName := "Asha"
    customerPhone := "+911234567890"
    itemDescription := "Box of parts"
    orderValue := 500
    calculatedDistance := 5
    status := s
    vendorId := v
    dropperId := d
    createdAt := 0
    updatedAt := 0 }

/-- The row `acceptOrder` writes for assignee d at time t, from the
`data` object of deliveryController.ts lines 78-81 plus the
automatically bumped updatedAt column. -/
def assignedRow (o : Order) (d : String) (t : Nat) : Order :=
  { o with
      dropperId := some d
      status := OrderStatus.ASSIGNED
      updatedAt := t }

/-- The row `createOrder` inserts, from the `data` object of
orderController.ts lines 92-102. -/
def createdRow (v : String) (input : CreateOrderInput) (newId : String)
    (dist : ℚ) (now : Nat) : Order :=
  { id := newId
    pickupAddress := input.pickupAddress
    deliveryAddress := input.deliveryAddress
    customerName := input.customerName
    customerPhone := input.customerPhone
    itemDescription := input.itemDescription
    orderValue := input.orderValue.getD 0
    calculatedDistance := dist
    status := OrderStatus.PENDING
    vendorId := v
    dropperId := none
    createdAt := now
    updatedAt := now }

/-- Concrete create-order request body used to instantiate the
round-trip theorem. -/
def sampleInput : CreateOrderInput :=
  { pickupAddress := "12 Pickup Street"
    deliveryAddress := "34 Delivery Avenue"
    customerName := "Asha"
    customerPhone := "+911234567890"
    itemDescription := "Box of parts"
    orderValue := some 500 }

/-- Concrete database obtained by creating an order through the create
handler. -/
def c3db1 : DB := (createOrder [] "v1" sampleInput "o1" 5 0).2

/-- Concrete database obtained by then cancelling that order through the
cancel handler while it is still PENDING. -/
def c3db2 : DB := (cancelOrder c3db1 "v1" "o1" 1).2

/-! ### Helper lemmas about the persistence model -/

theorem find?_middle {p : Order → Bool} {l1 l2 : DB} {o : Order}
    (h1 : ∀ x ∈ l1, p x = false) (ho : p o = true) :
    (l1 ++ o :: l2).find? p = some o := by
  rw [List.find?_append]
  have hnone : l1.find? p = none :=
    List.find?_eq_none.2 (fun x hx => by simp [h1 x hx])
  rw [hnone, List.find?_cons_of_pos _ ho]
  rfl

theorem map_update_middle {f : Order → Order} {i : String} {l1 l2 : DB}
    {o : Order} (h1 : ∀ x ∈ l1, x.id ≠ i) (h2 : ∀ x ∈ l2, x.id ≠ i)
    (ho : o.id = i) :
    (l1 ++ o :: l2).map (fun x => if x.id == i then f x else x)
      = l1 ++ f o :: l2 := by
  have keep : ∀ (l : DB), (∀ x ∈ l, x.id ≠ i) →
      l.map (fun x => if x.id == i then f x else x) = l := by
    intro l hl
    have : l.map (fun x => if x.id == i then f x else x) = l.map id :=
      List.map_congr_left (fun x hx => by
        have hne : (x.id == i) = false := beq_eq_false_iff_ne.2 (hl x hx)
        simp [hne])
    simpa using this
  rw [List.map_append, keep l1 h1, List.map_cons, keep l2 h2]
  have : (o.id == i) = true := beq_iff_eq.2 ho
  simp [this]

theorem prismaUpdateOrder_middle {f : Order → Order} {i : String}
    {l1 l2 : DB} {o : Order} (h1 : ∀ x ∈ l1, x.id ≠ i)
    (h2 : ∀ x ∈ l2, x.id ≠ i) (ho : o.id = i) :
    prismaUpdateOrder (l1 ++ o :: l2) i f = (some (f o), l1 ++ f o :: l2) := by
  unfold prismaUpdateOrder
  rw [find?_middle (p := fun x => x.id == i)
      (fun x hx => beq_eq_false_iff_ne.2 (h1 x hx)) (beq_iff_eq.2 ho)]
  rw [map_update_middle h1 h2 ho]

theorem commitEnvelope_snd (r : Option Order × DB) :
    (commitEnvelope r).2 = r.2 := by
  rcases r with ⟨u, db⟩
  cases u <;> rfl

theorem prismaUpdateOrder_snd (db : DB) (i : String) (f : Order → Order) :
    (prismaUpdateOrder db i f).2 = db ∨
    (prismaUpdateOrder db i f).2
      = db.map (fun x => if x.id == i then f x else x) := by
  unfold prismaUpdateOrder
  cases db.find? (fun o => o.id == i)
  · exact Or.inl rfl
  · exact Or.inr rfl

/-! ### Claims -/

/-- Claim C4: for every order whose status is not PENDING, a cancellation
request by the owning vendor is rejected with the InvalidTransition-class
400 error ("Only pending orders can be cancelled") and the table is
unchanged; from PENDING, cancellation succeeds and sets status
CANCELLED. -/
theorem claim_C4_cancel_only_from_pending :
    (∀ (db : DB) (v orderId : String) (now : Nat) (o : Order),
      db.find? (fun x => x.id == orderId && x.vendorId == v) = some o →
      o.status ≠ OrderStatus.PENDING →
      cancelOrder db v orderId now
        = (ApiResult.err 400 "Only pending orders can be cancelled", db)) ∧
    (∀ (l1 l2 : DB) (o : Order) (v orderId : String) (now : Nat),
      (∀ x ∈ l1, x.id ≠ orderId) → (∀ x ∈ l2, x.id ≠ orderId) →
      o.id = orderId → o.vendorId = v → o.status = OrderStatus.PENDING →
      cancelOrder (l1 ++ o :: l2) v orderId now
        = (ApiResult.ok
            { o with status := OrderStatus.CANCELLED, updatedAt := now },
           l1 ++ { o with status := OrderStatus.CANCELLED, updatedAt := now }
             :: l2)) := by
  constructor
  · intro db v orderId now o hfind hst
    have hb : (o.status != OrderStatus.PENDING) = true := by
      simp [bne, beq_eq_false_iff_ne.2 hst]
    simp [cancelOrder, hfind, hb]
  · intro l1 l2 o v orderId now h1 h2 ho hv hst
    have hfind : (l1 ++ o :: l2).find?
        (fun x => x.id == orderId && x.vendorId == v) = some o := by
      refine find?_middle (fun x hx => ?_) ?_
      · simp [beq_eq_false_iff_ne.2 (h1 x hx)]
      · simp [ho, hv]
    have hb : (o.status != OrderStatus.PENDING) = false := by
      simp [bne, hst]
    simp [cancelOrder, commitEnvelope, hfind, hb, prismaUpdateOrder_middle h1 h2 ho]

/-- Witness for claim C4: a non-PENDING order cannot be cancelled, a
PENDING one can. -/
theorem claim_C4_witness :
    cancelOrder [sampleOrder "o1" "v1" (some "d1") OrderStatus.ASSIGNED]
        "v1" "o1" 7
      = (ApiResult.err 400 "Only pending orders can be cancelled",
         [sampleOrder "o1" "v1" (some "d1") OrderStatus.ASSIGNED]) ∧
    cancelOrder [sampleOrder "o2" "v1" none OrderStatus.PENDING] "v1" "o2" 7
      = (ApiResult.ok
          { sampleOrder "o2" "v1" none OrderStatus.PENDING with
              status := OrderStatus.CANCELLED, updatedAt := 7 },
         [{ sampleOrder "o2" "v1" none OrderStatus.PENDING with
              status := OrderStatus.CANCELLED, updatedAt := 7 }]) :=
  ⟨claim_C4_cancel_only_from_pending.1
      [sampleOrder "o1" "v1" (some "d1") OrderStatus.ASSIGNED] "v1" "o1" 7
      (sampleOrder "o1" "v1" (some "d1") OrderStatus.ASSIGNED)
      (by decide) (by decide),
   claim_C4_cancel_only_from_pending.2 [] []
      (sampleOrder "o2" "v1" none OrderStatus.PENDING) "v1" "o2" 7
      (by simp) (by simp) (by decide) (by decide) (by decide)⟩

/-- Claim C9: a registration whose role is neither VENDOR nor
DELIVERY_PARTNER is answered with the 400 envelope "Invalid role. Must be
VENDOR or DELIVERY_PARTNER" and the users table is unchanged, so no ADMIN
user can be created through public registration. -/
theorem claim_C9_register_rejects_other_roles
    (users : List User) (input : RegisterInput) (newId hashedPassword : String)
    (h1 : input.role ≠ "VENDOR") (h2 : input.role ≠ "DELIVERY_PARTNER") :
    register users input newId hashedPassword
      = (ApiResult.err 400 "Invalid role. Must be VENDOR or DELIVERY_PARTNER",
         users) := by
  simp [register, List.contains, List.elem_eq_mem, h1, h2]

/-- Witness for claim C9: registering with role ADMIN is rejected and no
user is created. -/
theorem claim_C9_witness :
    register []
        { email := "a@b.c", password := "pw", name := "Admin",
          phone := "+911111111111", role := "ADMIN" } "u1" "hashed"
      = (ApiResult.err 400 "Invalid role. Must be VENDOR or DELIVERY_PARTNER",
         []) :=
  claim_C9_register_rejects_other_roles []
    { email := "a@b.c", password := "pw", name := "Admin",
      phone := "+911111111111", role := "ADMIN" } "u1" "hashed"
    (by decide) (by decide)

/-- Claim C5, counterexample: a delivery status update by a caller who is
not the assigned dropper is rejected with HTTP 404 ("Order not found or
you are not assigned to this delivery"), not with the 403
AuthorizationError the claim states. -/
theorem claim_C5_counterexample :
    updateDeliveryStatus [sampleOrder "o1" "v1" (some "d1") OrderStatus.ASSIGNED]
        "d2" "o1" (some OrderStatus.PICKED_UP) 3
      = (ApiResult.err 404
          "Order not found or you are not assigned to this delivery",
         [sampleOrder "o1" "v1" (some "d1") OrderStatus.ASSIGNED]) ∧
    (404 : Nat) ≠ 403 := by
  constructor
  · rfl
  · decide

/-- Claim C5 as amended: a delivery-partner status update or completion on
an order whose dropperId differs from the caller is rejected with a 404
not-found envelope (not a 403), and the table is unchanged. -/
theorem claim_C5_foreign_order_rejected
    (db : DB) (caller orderId : String) (s : OrderStatus) (now : Nat)
    (h : ∀ x ∈ db, x.id = orderId → x.dropperId ≠ some caller) :
    updateDeliveryStatus db caller orderId (some s) now
      = (ApiResult.err 404
          "Order not found or you are not assigned to this delivery", db) ∧
    completeDelivery db caller orderId now
      = (ApiResult.err 404
          "Order not found or not ready for delivery completion", db) := by
  constructor
  · have hfind : db.find?
        (fun o => o.id == orderId && o.dropperId == some caller) = none := by
      refine List.find?_eq_none.2 (fun x hx => ?_)
      simp only [Bool.and_eq_true, beq_iff_eq]
      rintro ⟨hid, hdrop⟩
      exact h x hx hid hdrop
    simp [updateDeliveryStatus, hfind]
  · have hfind : db.find?
        (fun o => o.id == orderId && o.dropperId == some caller
          && o.status == OrderStatus.IN_TRANSIT) = none := by
      refine List.find?_eq_none.2 (fun x hx => ?_)
      simp only [Bool.and_eq_true, beq_iff_eq]
      rintro ⟨⟨hid, hdrop⟩, _⟩
      exact h x hx hid hdrop
    simp [completeDelivery, hfind]

/-- Witness for claim C5 as amended: with the order assigned to d1, caller
d2 gets the 404 rejection from both endpoints. -/
theorem claim_C5_witness :
    updateDeliveryStatus [sampleOrder "o1" "v1" (some "d1") OrderStatus.IN_TRANSIT]
        "d2" "o1" (some OrderStatus.IN_TRANSIT) 3
      = (ApiResult.err 404
          "Order not found or you are not assigned to this delivery",
         [sampleOrder "o1" "v1" (some "d1") OrderStatus.IN_TRANSIT]) ∧
    completeDelivery [sampleOrder "o1" "v1" (some "d1") OrderStatus.IN_TRANSIT]
        "d2" "o1" 3
      = (ApiResult.err 404
          "Order not found or not ready for delivery completion",
         [sampleOrder "o1" "v1" (some "d1") OrderStatus.IN_TRANSIT]) :=
  claim_C5_foreign_order_rejected
    [sampleOrder "o1" "v1" (some "d1") OrderStatus.IN_TRANSIT]
    "d2" "o1" OrderStatus.IN_TRANSIT 3 (by decide)

/-- Claim C1, counterexample: the delivery PATCH handler accepts the
transition DELIVERED to PENDING, which is not an edge of the section 4.1
table, and persists it, instead of rejecting it and leaving the order
unchanged. -/
theorem claim_C1_counterexample :
    specTransitionTable OrderStatus.DELIVERED OrderStatus.PENDING = false ∧
    (updateDeliveryStatus
        [sampleOrder "o1" "v1" (some "d1") OrderStatus.DELIVERED]
        "d1" "o1" (some OrderStatus.PENDING) 9).1.isOk = true ∧
    ((updateDeliveryStatus
        [sampleOrder "o1" "v1" (some "d1") OrderStatus.DELIVERED]
        "d1" "o1" (some OrderStatus.PENDING) 9).2.map Order.status)
      = [OrderStatus.PENDING] := by
  refine ⟨rfl, rfl, rfl⟩

/-- Claim C1 as amended: neither status-update endpoint validates the
requested transition against the section 4.1 table.  The delivery handler
checks only that the caller is the assigned dropper, the vendor handler
only that the vendor owns the order; both then persist any requested
status — in particular any transition outside the table — and respond
with success; no InvalidTransition rejection exists. -/
theorem claim_C1_status_update_unvalidated
    (l1 l2 : DB) (o : Order) (caller v orderId : String) (s : OrderStatus)
    (now : Nat)
    (h1 : ∀ x ∈ l1, x.id ≠ orderId) (h2 : ∀ x ∈ l2, x.id ≠ orderId)
    (ho : o.id = orderId) (hd : o.dropperId = some caller)
    (hv : o.vendorId = v)
    (_hbad : specTransitionTable o.status s = false) :
    updateDeliveryStatus (l1 ++ o :: l2) caller orderId (some s) now
      = (ApiResult.ok { o with status := s, updatedAt := now },
         l1 ++ { o with status := s, updatedAt := now } :: l2) ∧
    updateOrderStatus (l1 ++ o :: l2) v orderId (some s) now
      = (ApiResult.ok { o with status := s, updatedAt := now },
         l1 ++ { o with status := s, updatedAt := now } :: l2) := by
  constructor
  · have hfind : (l1 ++ o :: l2).find?
        (fun x => x.id == orderId && x.dropperId == some caller) = some o := by
      refine find?_middle (fun x hx => ?_) ?_
      · simp [beq_eq_false_iff_ne.2 (h1 x hx)]
      · simp [ho, hd]
    simp [updateDeliveryStatus, commitEnvelope, hfind, prismaUpdateOrder_middle h1 h2 ho]
  · have hfind : (l1 ++ o :: l2).find?
        (fun x => x.id == orderId && x.vendorId == v) = some o := by
      refine find?_middle (fun x hx => ?_) ?_
      · simp [beq_eq_false_iff_ne.2 (h1 x hx)]
      · simp [ho, hv]
    simp [updateOrderStatus, commitEnvelope, hfind, prismaUpdateOrder_middle h1 h2 ho]

/-- Witness for claim C1 as amended: both endpoints happily persist the
off-table transition DELIVERED to PENDING. -/
theorem claim_C1_witness :
    updateDeliveryStatus [sampleOrder "o1" "v1" (some "d1") OrderStatus.DELIVERED]
        "d1" "o1" (some OrderStatus.PENDING) 9
      = (ApiResult.ok
          { sampleOrder "o1" "v1" (some "d1") OrderStatus.DELIVERED with
              status := OrderStatus.PENDING, updatedAt := 9 },
         [{ sampleOrder "o1" "v1" (some "d1") OrderStatus.DELIVERED with
              status := OrderStatus.PENDING, updatedAt := 9 }]) ∧
    updateOrderStatus [sampleOrder "o1" "v1" (some "d1") OrderStatus.DELIVERED]
        "v1" "o1" (some OrderStatus.PENDING) 9
      = (ApiResult.ok
          { sampleOrder "o1" "v1" (some "d1") OrderStatus.DELIVERED with
              status := OrderStatus.PENDING, updatedAt := 9 },
         [{ sampleOrder "o1" "v1" (some "d1") OrderStatus.DELIVERED with
              status := OrderStatus.PENDING, updatedAt := 9 }]) :=
  claim_C1_status_update_unvalidated [] []
    (sampleOrder "o1" "v1" (some "d1") OrderStatus.DELIVERED)
    "d1" "v1" "o1" OrderStatus.PENDING 9
    (by simp) (by simp) (by decide) (by decide) (by decide) (by decide)

/-- Claim C2, counterexample: when the two availability checks of two
accept requests for the same PENDING order both run before either commit
(the schedule the event loop permits at the await between `findFirst` and
`update`), BOTH requests report success — not exactly one — and the order
ends assigned to the later committer, the earlier assignment having been
silently overwritten: the write is not the claimed atomic conditional
update, and no OrderAlreadyTaken error exists in the code. -/
theorem claim_C2_counterexample :
    (interleavedAccept [sampleOrder "o1" "v1" none OrderStatus.PENDING]
        "o1" "d1" "d2" 1 2).1.isOk = true ∧
    (interleavedAccept [sampleOrder "o1" "v1" none OrderStatus.PENDING]
        "o1" "d1" "d2" 1 2).2.1.isOk = true ∧
    ((interleavedAccept [sampleOrder "o1" "v1" none OrderStatus.PENDING]
        "o1" "d1" "d2" 1 2).2.2.map Order.dropperId) = [some "d2"] := by
  refine ⟨rfl, rfl, rfl⟩

/-- Claim C2 as amended: acceptance is a non-atomic check
(`findFirst` on status PENDING and null dropper) followed by an update
keyed on the id alone.  When the two requests run serially, exactly one
succeeds and the other receives a 404 "Order not available or already
accepted" envelope (there is no OrderAlreadyTaken error) with the table
unchanged; interleaved checks can make both succeed. -/
theorem claim_C2_serial_accept_exactly_one
    (l1 l2 : DB) (o : Order) (d1 d2 orderId : String) (t1 t2 : Nat)
    (h1 : ∀ x ∈ l1, x.id ≠ orderId) (h2 : ∀ x ∈ l2, x.id ≠ orderId)
    (ho : o.id = orderId) (hst : o.status = OrderStatus.PENDING)
    (hdr : o.dropperId = none) :
    acceptOrder (l1 ++ o :: l2) d1 orderId t1
      = (ApiResult.ok (assignedRow o d1 t1), l1 ++ assignedRow o d1 t1 :: l2) ∧
    acceptOrder (l1 ++ assignedRow o d1 t1 :: l2) d2 orderId t2
      = (ApiResult.err 404 "Order not available or already accepted",
         l1 ++ assignedRow o d1 t1 :: l2) := by
  constructor
  · have hcheck : acceptCheck (l1 ++ o :: l2) orderId = some o := by
      refine find?_middle (fun x hx => ?_) ?_
      · simp [beq_eq_false_iff_ne.2 (h1 x hx)]
      · simp [ho, hst, hdr]
    simp [acceptOrder, hcheck, acceptCommit, commitEnvelope, assignedRow,
      prismaUpdateOrder_middle h1 h2 ho]
  · have hcheck : acceptCheck (l1 ++ assignedRow o d1 t1 :: l2) orderId
        = none := by
      refine List.find?_eq_none.2 (fun x hx => ?_)
      rcases List.mem_append.1 hx with hx1 | hx2
      · simp [beq_eq_false_iff_ne.2 (h1 x hx1)]
      · rcases List.mem_cons.1 hx2 with rfl | hx3
        · simp [assignedRow]
        · simp [beq_eq_false_iff_ne.2 (h2 x hx3)]
    simp [acceptOrder, hcheck]

/-- Witness for claim C2 as amended: serial double accept on a PENDING
order gives one success and one 404 rejection. -/
theorem claim_C2_witness :
    acceptOrder [sampleOrder "o1" "v1" none OrderStatus.PENDING] "d1" "o1" 1
      = (ApiResult.ok
          (assignedRow (sampleOrder "o1" "v1" none OrderStatus.PENDING) "d1" 1),
         [assignedRow (sampleOrder "o1" "v1" none OrderStatus.PENDING) "d1" 1]) ∧
    acceptOrder
        [assignedRow (sampleOrder "o1" "v1" none OrderStatus.PENDING) "d1" 1]
        "d2" "o1" 2
      = (ApiResult.err 404 "Order not available or already accepted",
         [assignedRow (sampleOrder "o1" "v1" none OrderStatus.PENDING) "d1" 1]) :=
  claim_C2_serial_accept_exactly_one [] []
    (sampleOrder "o1" "v1" none OrderStatus.PENDING) "d1" "d2" "o1" 1 2
    (by simp) (by simp) (by decide) (by decide) (by decide)

/-- Claim C10: a successful REST acceptance changes only status (to
ASSIGNED), dropperId (to the caller) and updatedAt; every other field of
the row, and every other row of the table, is unchanged. -/
theorem claim_C10_accept_frame
    (l1 l2 : DB) (o : Order) (d orderId : String) (now : Nat)
    (h1 : ∀ x ∈ l1, x.id ≠ orderId) (h2 : ∀ x ∈ l2, x.id ≠ orderId)
    (ho : o.id = orderId) (hst : o.status = OrderStatus.PENDING)
    (hdr : o.dropperId = none) :
    ∃ u : Order,
      acceptOrder (l1 ++ o :: l2) d orderId now = (ApiResult.ok u, l1 ++ u :: l2)
      ∧ u.status = OrderStatus.ASSIGNED ∧ u.dropperId = some d
      ∧ u.updatedAt = now
      ∧ u.vendorId = o.vendorId ∧ u.pickupAddress = o.pickupAddress
      ∧ u.deliveryAddress = o.deliveryAddress
      ∧ u.customerName = o.customerName ∧ u.customerPhone = o.customerPhone
      ∧ u.itemDescription = o.itemDescription ∧ u.orderValue = o.orderValue
      ∧ u.calculatedDistance = o.calculatedDistance
      ∧ u.createdAt = o.createdAt := by
  refine ⟨assignedRow o d now, ?_, rfl, rfl, rfl, rfl, rfl, rfl, rfl, rfl,
      rfl, rfl, rfl, rfl⟩
  have hcheck : acceptCheck (l1 ++ o :: l2) orderId = some o := by
    refine find?_middle (fun x hx => ?_) ?_
    · simp [beq_eq_false_iff_ne.2 (h1 x hx)]
    · simp [ho, hst, hdr]
  simp [acceptOrder, hcheck, acceptCommit, commitEnvelope, assignedRow,
    prismaUpdateOrder_middle h1 h2 ho]

/-- Witness for claim C10: concrete acceptance leaving all other fields
intact. -/
theorem claim_C10_witness :
    ∃ u : Order,
      acceptOrder [sampleOrder "o1" "v1" none OrderStatus.PENDING] "d1" "o1" 4
        = (ApiResult.ok u, [u])
      ∧ u.status = OrderStatus.ASSIGNED ∧ u.dropperId = some "d1"
      ∧ u.updatedAt = 4
      ∧ u.vendorId = (sampleOrder "o1" "v1" none OrderStatus.PENDING).vendorId
      ∧ u.pickupAddress
          = (sampleOrder "o1" "v1" none OrderStatus.PENDING).pickupAddress
      ∧ u.deliveryAddress
          = (sampleOrder "o1" "v1" none OrderStatus.PENDING).deliveryAddress
      ∧ u.customerName
          = (sampleOrder "o1" "v1" none OrderStatus.PENDING).customerName
      ∧ u.customerPhone
          = (sampleOrder "o1" "v1" none OrderStatus.PENDING).customerPhone
      ∧ u.itemDescription
          = (sampleOrder "o1" "v1" none OrderStatus.PENDING).itemDescription
      ∧ u.orderValue
          = (sampleOrder "o1" "v1" none OrderStatus.PENDING).orderValue
      ∧ u.calculatedDistance
          = (sampleOrder "o1" "v1" none OrderStatus.PENDING).calculatedDistance
      ∧ u.createdAt
          = (sampleOrder "o1" "v1" none OrderStatus.PENDING).createdAt :=
  claim_C10_accept_frame [] [] (sampleOrder "o1" "v1" none OrderStatus.PENDING)
    "d1" "o1" 4 (by simp) (by simp) (by decide) (by decide) (by decide)

/-- Claim C8: the socket delivery:status-update handler writes the
requested status to any existing order unconditionally — for every value
of the order's dropperId and current status, with no caller identity in
the event at all and no transition check — and in every case (including
the missing-order and failed-update branches) nothing is sent back to the
emitting client. -/
theorem claim_C8_socket_update_unchecked :
    (∀ (l1 l2 : DB) (o : Order) (orderId : String) (s : OrderStatus)
        (now : Nat),
      (∀ x ∈ l1, x.id ≠ orderId) → (∀ x ∈ l2, x.id ≠ orderId) →
      o.id = orderId →
      socketDeliveryStatusUpdate (l1 ++ o :: l2) orderId s now
        = { db := l1 ++ { o with status := s, updatedAt := now } :: l2,
            emitterMsg := none,
            vendorRoomEmit := some { o with status := s, updatedAt := now } }) ∧
    (∀ (db : DB) (orderId : String) (s : OrderStatus) (now : Nat),
      (socketDeliveryStatusUpdate db orderId s now).emitterMsg = none) := by
  constructor
  · intro l1 l2 o orderId s now h1 h2 ho
    have hfind : (l1 ++ o :: l2).find? (fun x => x.id == orderId) = some o := by
      refine find?_middle (fun x hx => beq_eq_false_iff_ne.2 (h1 x hx))
        (beq_iff_eq.2 ho)
    simp [socketDeliveryStatusUpdate, hfind, prismaUpdateOrder_middle h1 h2 ho]
  · intro db orderId s now
    unfold socketDeliveryStatusUpdate
    split
    · rfl
    · split <;> rfl

/-- Witness for claim C8: a status write straight to PENDING on a
DELIVERED order assigned to d1, carrying no caller identity, succeeds and
answers the emitter nothing. -/
theorem claim_C8_witness :
    socketDeliveryStatusUpdate
        [sampleOrder "o1" "v1" (some "d1") OrderStatus.DELIVERED]
        "o1" OrderStatus.PENDING 9
      = { db := [{ sampleOrder "o1" "v1" (some "d1") OrderStatus.DELIVERED with
                     status := OrderStatus.PENDING
                     updatedAt := 9 }],
          emitterMsg := none,
          vendorRoomEmit :=
            some { sampleOrder "o1" "v1" (some "d1") OrderStatus.DELIVERED with
                     status := OrderStatus.PENDING
                     updatedAt := 9 } } :=
  claim_C8_socket_update_unchecked.1 [] []
    (sampleOrder "o1" "v1" (some "d1") OrderStatus.DELIVERED)
    "o1" OrderStatus.PENDING 9 (by simp) (by simp) (by decide)

/-- Claim C7: creating an order from a valid input (non-empty text fields,
a supplied order value, a fresh generated id) and immediately fetching it
by that id returns a row whose six input fields equal the input, with the
generated id, PENDING status and null dropperId. -/
theorem claim_C7_create_fetch_roundtrip
    (db : DB) (v : String) (input : CreateOrderInput) (newId : String)
    (dist : ℚ) (now : Nat) (val : ℚ)
    (hfresh : ∀ x ∈ db, x.id ≠ newId)
    (hp : input.pickupAddress ≠ "") (hda : input.deliveryAddress ≠ "")
    (hn : input.customerName ≠ "") (hph : input.customerPhone ≠ "")
    (hi : input.itemDescription ≠ "") (hval : input.orderValue = some val) :
    ∃ o : Order,
      createOrder db v input newId dist now = (ApiResult.ok o, db ++ [o])
      ∧ getOrderById (db ++ [o]) newId = ApiResult.ok o
      ∧ o.id = newId ∧ o.pickupAddress = input.pickupAddress
      ∧ o.deliveryAddress = input.deliveryAddress
      ∧ o.customerName = input.customerName
      ∧ o.customerPhone = input.customerPhone
      ∧ o.itemDescription = input.itemDescription
      ∧ o.orderValue = val
      ∧ o.status = OrderStatus.PENDING ∧ o.dropperId = none := by
  have hcond : (input.pickupAddress == "" || input.deliveryAddress == ""
      || input.customerName == "" || input.customerPhone == ""
      || input.itemDescription == "") = false := by
    simp [beq_eq_false_iff_ne.2 hp, beq_eq_false_iff_ne.2 hda,
      beq_eq_false_iff_ne.2 hn, beq_eq_false_iff_ne.2 hph,
      beq_eq_false_iff_ne.2 hi]
  refine ⟨createdRow v input newId dist now, ?_, ?_, rfl, rfl, rfl, rfl, rfl,
      rfl, ?_, rfl, rfl⟩
  · simp [createOrder, hcond, createdRow]
  · have hfind : (db ++ createdRow v input newId dist now :: []).find?
        (fun x => x.id == newId) = some (createdRow v input newId dist now) :=
      find?_middle (fun x hx => beq_eq_false_iff_ne.2 (hfresh x hx))
        (beq_iff_eq.2 rfl)
    simp [getOrderById, hfind]
  · simp [createdRow, hval]

/-- Witness for claim C7: a concrete create-then-fetch round trip. -/
theorem claim_C7_witness :
    ∃ o : Order,
      createOrder [] "v1" sampleInput "o1" 5 0 = (ApiResult.ok o, [] ++ [o])
      ∧ getOrderById ([] ++ [o]) "o1" = ApiResult.ok o
      ∧ o.id = "o1" ∧ o.pickupAddress = sampleInput.pickupAddress
      ∧ o.deliveryAddress = sampleInput.deliveryAddress
      ∧ o.customerName = sampleInput.customerName
      ∧ o.customerPhone = sampleInput.customerPhone
      ∧ o.itemDescription = sampleInput.itemDescription
      ∧ o.orderValue = 500
      ∧ o.status = OrderStatus.PENDING ∧ o.dropperId = none :=
  claim_C7_create_fetch_roundtrip [] "v1" sampleInput "o1" 5 0 500
    (by simp) (by decide) (by decide) (by decide) (by decide) (by decide)
    (by decide)

/-- Claim C6: delivery-partner earnings are 20% of the orderValue sum over
that partner's DELIVERED orders and vendor revenue is the plain sum, so
completing an IN_TRANSIT order raises the assigned partner's
totalEarnings by exactly orderValue * 20% and the owning vendor's
totalRevenue by exactly orderValue. -/
theorem claim_C6_stats_delta
    (l1 l2 : DB) (o : Order) (d v orderId : String) (now : Nat)
    (h1 : ∀ x ∈ l1, x.id ≠ orderId) (h2 : ∀ x ∈ l2, x.id ≠ orderId)
    (ho : o.id = orderId) (hdr : o.dropperId = some d)
    (hv : o.vendorId = v) (hst : o.status = OrderStatus.IN_TRANSIT) :
    (completeDelivery (l1 ++ o :: l2) d orderId now).1.isOk = true ∧
    (getDeliveryStats
        (completeDelivery (l1 ++ o :: l2) d orderId now).2 d).totalEarnings
      = (getDeliveryStats (l1 ++ o :: l2) d).totalEarnings
        + o.orderValue * (2 / 10) ∧
    (getVendorStats
        (completeDelivery (l1 ++ o :: l2) d orderId now).2 v).totalRevenue
      = (getVendorStats (l1 ++ o :: l2) v).totalRevenue + o.orderValue := by
  have hfind : (l1 ++ o :: l2).find?
      (fun x => x.id == orderId && x.dropperId == some d
        && x.status == OrderStatus.IN_TRANSIT) = some o := by
    refine find?_middle (fun x hx => ?_) ?_
    · simp [beq_eq_false_iff_ne.2 (h1 x hx)]
    · simp [ho, hdr, hst]
  have hcd : completeDelivery (l1 ++ o :: l2) d orderId now
      = (ApiResult.ok
          { o with status := OrderStatus.DELIVERED, updatedAt := now },
         l1 ++ { o with status := OrderStatus.DELIVERED, updatedAt := now }
           :: l2) := by
    simp [completeDelivery, commitEnvelope, hfind, prismaUpdateOrder_middle h1 h2 ho]
  refine ⟨by simp [hcd, ApiResult.isOk], ?_, ?_⟩
  · rw [hcd]
    simp only [getDeliveryStats, List.filter_append, List.filter_cons,
      List.map_append, List.sum_append, hdr, hst]
    simp
    ring
  · rw [hcd]
    simp only [getVendorStats, List.filter_append, List.filter_cons,
      List.map_append, List.sum_append, hv, hst]
    simp
    ring

/-- Witness for claim C6: completing a concrete order of value 500 raises
the partner's totalEarnings by exactly 100 and the vendor's totalRevenue
by exactly 500. -/
theorem claim_C6_witness :
    (completeDelivery
        ([] ++ sampleOrder "o1" "v1" (some "d1") OrderStatus.IN_TRANSIT :: [])
        "d1" "o1" 9).1.isOk = true ∧
    (getDeliveryStats
        (completeDelivery
          ([] ++ sampleOrder "o1" "v1" (some "d1") OrderStatus.IN_TRANSIT :: [])
          "d1" "o1" 9).2 "d1").totalEarnings
      = (getDeliveryStats
          ([] ++ sampleOrder "o1" "v1" (some "d1") OrderStatus.IN_TRANSIT :: [])
          "d1").totalEarnings + 100 ∧
    (getVendorStats
        (completeDelivery
          ([] ++ sampleOrder "o1" "v1" (some "d1") OrderStatus.IN_TRANSIT :: [])
          "d1" "o1" 9).2 "v1").totalRevenue
      = (getVendorStats
          ([] ++ sampleOrder "o1" "v1" (some "d1") OrderStatus.IN_TRANSIT :: [])
          "v1").totalRevenue + 500 := by
  obtain ⟨ha, hb, hc⟩ := claim_C6_stats_delta [] []
    (sampleOrder "o1" "v1" (some "d1") OrderStatus.IN_TRANSIT)
    "d1" "v1" "o1" 9 (by simp) (by simp) (by decide) (by decide) (by decide)
    (by decide)
  refine ⟨ha, ?_, ?_⟩
  · rw [hb]
    norm_num [sampleOrder]
  · rw [hc]
    norm_num [sampleOrder]

/-- Shape of a single step: every handler leaves the table unchanged,
appends one row, rewrites matching rows with an id- and
dropper-preserving function, or performs the accept rewrite, which only
fires when the availability check found a PENDING row with no dropper. -/
theorem step_cases {db db' : DB} (h : Step db db') :
    db' = db
    ∨ (∃ o : Order, db' = db ++ [o])
    ∨ (∃ (i : String) (f : Order → Order),
        (∀ x, (f x).id = x.id) ∧ (∀ x, (f x).dropperId = x.dropperId) ∧
        db' = db.map (fun x => if x.id == i then f x else x))
    ∨ (∃ (i dr : String) (t : Nat) (r : Order),
        acceptCheck db i = some r ∧
        db' = db.map (fun x => if x.id == i then
          { x with
              dropperId := some dr
              status := OrderStatus.ASSIGNED
              updatedAt := t } else x)) := by
  cases h with
  | create vendorId input newId dist now =>
    unfold createOrder
    split
    · exact Or.inl rfl
    · exact Or.inr (Or.inl ⟨_, rfl⟩)
  | accept dropperId orderId now =>
    unfold acceptOrder
    split
    · exact Or.inl rfl
    · next r heq =>
      unfold acceptCommit
      rw [commitEnvelope_snd]
      rcases prismaUpdateOrder_snd db orderId _ with hs | hs
      · exact Or.inl hs
      · exact Or.inr (Or.inr (Or.inr ⟨orderId, dropperId, now, r, heq, hs⟩))
  | cancel vendorId orderId now =>
    unfold cancelOrder
    split
    · exact Or.inl rfl
    · split
      · exact Or.inl rfl
      · rw [commitEnvelope_snd]
        rcases prismaUpdateOrder_snd db orderId
            (fun x => { x with status := OrderStatus.CANCELLED, updatedAt := now })
          with hs | hs
        · exact Or.inl hs
        · exact Or.inr (Or.inr (Or.inl
            ⟨orderId,
             fun x => { x with status := OrderStatus.CANCELLED, updatedAt := now },
             fun x => rfl, fun x => rfl, hs⟩))
  | vendorStatus vendorId orderId s now =>
    unfold updateOrderStatus
    split
    · exact Or.inl rfl
    · next s1 =>
      split
      · exact Or.inl rfl
      · rw [commitEnvelope_snd]
        rcases prismaUpdateOrder_snd db orderId
            (fun x => { x with status := s1, updatedAt := now }) with hs | hs
        · exact Or.inl hs
        · exact Or.inr (Or.inr (Or.inl
            ⟨orderId, fun x => { x with status := s1, updatedAt := now },
             fun x => rfl, fun x => rfl, hs⟩))
  | deliveryStatus callerId orderId s now =>
    unfold updateDeliveryStatus
    split
    · exact Or.inl rfl
    · next s1 =>
      split
      · exact Or.inl rfl
      · rw [commitEnvelope_snd]
        rcases prismaUpdateOrder_snd db orderId
            (fun x => { x with status := s1, updatedAt := now }) with hs | hs
        · exact Or.inl hs
        · exact Or.inr (Or.inr (Or.inl
            ⟨orderId, fun x => { x with status := s1, updatedAt := now },
             fun x => rfl, fun x => rfl, hs⟩))
  | complete callerId orderId now =>
    unfold completeDelivery
    split
    · exact Or.inl rfl
    · rw [commitEnvelope_snd]
      rcases prismaUpdateOrder_snd db orderId
          (fun x => { x with status := OrderStatus.DELIVERED, updatedAt := now })
        with hs | hs
      · exact Or.inl hs
      · exact Or.inr (Or.inr (Or.inl
          ⟨orderId,
           fun x => { x with status := OrderStatus.DELIVERED, updatedAt := now },
           fun x => rfl, fun x => rfl, hs⟩))

theorem dropper_kept_map {db : DB} {i : String} {f : Order → Order}
    (hfid : ∀ x, (f x).id = x.id) (hfdrop : ∀ x, (f x).dropperId = x.dropperId)
    {o : Order} (ho : o ∈ db) :
    ∃ o' ∈ db.map (fun x => if x.id == i then f x else x),
      o'.id = o.id ∧ o'.dropperId = o.dropperId := by
  refine ⟨(fun x => if x.id == i then f x else x) o,
    List.mem_map_of_mem _ ho, ?_, ?_⟩ <;>
    by_cases hc : (o.id == i) = true <;> simp [hc, hfid, hfdrop]

/-- Claim C3, counterexample: the table reached by creating an order and
cancelling it while PENDING contains an order whose status is CANCELLED
(not PENDING) and whose dropperId is still null, so dropperId being null
is not equivalent to the status being PENDING. -/
theorem claim_C3_counterexample :
    Reachable c3db2 ∧
    c3db2.map (fun o => (o.status, o.dropperId))
      = [(OrderStatus.CANCELLED, (none : Option String))] ∧
    OrderStatus.CANCELLED ≠ OrderStatus.PENDING := by
  refine ⟨?_, rfl, by decide⟩
  exact Relation.ReflTransGen.tail
    (Relation.ReflTransGen.tail Relation.ReflTransGen.refl
      (Step.create [] "v1" sampleInput "o1" 5 0))
    (Step.cancel c3db1 "v1" "o1" 1)

/-- Claim C3 as amended: in a table with distinct ids, a dropperId that
has been set survives every operation with its id intact (write-once);
the claimed biconditional with PENDING fails, because cancellation keeps
the dropper null while moving the status off PENDING. -/
theorem claim_C3_dropper_write_once
    (db db' : DB) (hstep : Step db db')
    (hnd : (db.map Order.id).Nodup)
    (o : Order) (ho : o ∈ db) (d : String) (hd : o.dropperId = some d) :
    ∃ o' ∈ db', o'.id = o.id ∧ o'.dropperId = some d := by
  rcases step_cases hstep with h | ⟨n, h⟩ | ⟨i, f, hfid, hfdrop, h⟩
    | ⟨i, dr, t, r, hr, h⟩
  · subst h
    exact ⟨o, ho, rfl, hd⟩
  · subst h
    exact ⟨o, List.mem_append_left _ ho, rfl, hd⟩
  · subst h
    obtain ⟨o', ho', hid, hdrop⟩ := dropper_kept_map hfid hfdrop ho
    exact ⟨o', ho', hid, by rw [hdrop, hd]⟩
  · subst h
    have hr' : List.find? (fun x => x.id == i
        && x.status == OrderStatus.PENDING && x.dropperId == none) db
        = some r := hr
    have hrmem : r ∈ db := List.mem_of_find?_eq_some hr'
    have hprop := List.find?_some hr'
    simp only [Bool.and_eq_true, beq_iff_eq] at hprop
    obtain ⟨⟨hri, _⟩, hrdrop⟩ := hprop
    have hne : o.id ≠ i := by
      intro hoi
      have hor : o = r :=
        List.inj_on_of_nodup_map hnd ho hrmem (by rw [hoi, hri])
      rw [hor, hrdrop] at hd
      exact Option.noConfusion hd
    refine ⟨o, ?_, rfl, hd⟩
    have hmem := List.mem_map_of_mem (fun x => if x.id == i then
      { x with
          dropperId := some dr
          status := OrderStatus.ASSIGNED
          updatedAt := t } else x) ho
    simpa [beq_eq_false_iff_ne.2 hne] using hmem

/-- Witness for claim C3 as amended: a delivery status update on an
assigned order keeps its dropper. -/
theorem claim_C3_witness :
    ∃ o' ∈ (updateDeliveryStatus
        [sampleOrder "o1" "v1" (some "d1") OrderStatus.ASSIGNED]
        "d1" "o1" (some OrderStatus.PICKED_UP) 8).2,
      o'.id = (sampleOrder "o1" "v1" (some "d1") OrderStatus.ASSIGNED).id ∧
      o'.dropperId = some "d1" :=
  claim_C3_dropper_write_once
    [sampleOrder "o1" "v1" (some "d1") OrderStatus.ASSIGNED]
    (updateDeliveryStatus
      [sampleOrder "o1" "v1" (some "d1") OrderStatus.ASSIGNED]
      "d1" "o1" (some OrderStatus.PICKED_UP) 8).2
    (Step.deliveryStatus _ "d1" "o1" (some OrderStatus.PICKED_UP) 8)
    (by simp)
    (sampleOrder "o1" "v1" (some "d1") OrderStatus.ASSIGNED)
    (by simp) "d1" (by decide)

end Droppers
